import Mathlib

/-!
Verification of the multi-provider generation dispatch layer of
`SPRINT1/common/sensei_common/connectors` (llm_router.py,
embedding_client.py, embedding_router.py, redis_client.py).

The Python code is shallowly embedded: each relevant method becomes a Lean
function over explicit state/oracle parameters.  External effects (HTTP
provider calls, Redis, the random number generator) are modelled as oracle
parameters; exceptions are modelled with `Except PyErr`.
-/

set_option maxHeartbeats 1000000
set_option maxRecDepth 8192

deriving instance DecidableEq for Except

namespace Sensei

/-- Python exception values that the embedded code can raise or catch.
The constructors cover the exception kinds reachable in the embedded
modules: `KeyError` (dict indexing), `ValueError`, `RuntimeError`,
`IndexError` (`providers[0]` on an empty list), HTTP status errors from
`raise_for_status`, timeouts / connection failures from httpx, JSON decode
errors from `json.loads`, and Redis connection errors. -/
inductive PyErr where
  | keyError (key : String)
  | valueError (msg : String)
  | runtimeError (msg : String)
  | indexError
  | httpStatusError (code : Nat)
  | timeoutError
  | connectionError
  | jsonDecodeError
  | redisError (msg : String)
  deriving DecidableEq, Repr

/-- Transient failures per the spec's taxonomy: timeout, connection
failure, 5xx-equivalent HTTP status.  Everything else (4xx, malformed
payload, …) is non-transient.  The source code itself never branches on
this predicate; it exists to state the spec's claims. -/
def PyErr.isTransient : PyErr → Bool
  | .timeoutError => true
  | .connectionError => true
  | .httpStatusError code => 500 ≤ code
  | _ => false

/-- `LLMProvider` dataclass of llm_router.py (fields as in the source;
`timeout_ms` and the HTTP fields are carried but play no role in the
control flow being verified). -/
structure LLMProvider where
  name : String
  provider_type : String
  endpoint : String
  api_key : String
  model : String
  timeout_ms : Int
  retries : Nat
  deriving DecidableEq, Repr

/-- `LLMRoute` dataclass of llm_router.py.  `weights = none` models
Python `None`. -/
structure LLMRoute where
  name : String
  strategy : String
  providers : List String
  weights : Option (List Int) := none
  deriving DecidableEq, Repr

/-- Python truthiness of `route.weights` (an `Optional[List[int]]`):
`None` and `[]` are falsy, a non-empty list is truthy. -/
def weightsTruthy : Option (List Int) → Bool
  | none => false
  | some [] => false
  | some (_ :: _) => true

/-- Outcome of one HTTP attempt against a generation provider, as observed
by `_call_provider` after `raise_for_status` / `_extract_text`: either the
extracted text or a raised exception.  The network is an external
collaborator, so each provider's behaviour is an oracle from the (1-based)
attempt number to an outcome. -/
inductive CallOutcome where
  | ok (text : String)
  | err (e : PyErr)
  deriving DecidableEq, Repr

/-- One step of the retry loop body of `LLMRouter._call_provider`
(llm_router.py lines 194–218):

    for attempt in range(1, provider.retries + 1):
        try:    ... return text
        except Exception as exc:
            ...
            if attempt == provider.retries:
                raise
    raise RuntimeError("LLM provider retries exhausted")

Every exception is caught by the bare `except Exception`; the loop makes
at most `retries` attempts and re-raises the last exception on attempt
number `retries`.  `fuel` counts the iterations the `range` has left
(`retries - attempt + 1` at entry), making the recursion structural; the
result carries the number of attempts actually made. -/
def callProviderLoop (behavior : Nat → CallOutcome) (retries : Nat) :
    Nat → Nat → Except PyErr String × Nat
  | attempt, 0 =>
    -- the range is exhausted without returning (only when retries = 0):
    -- the final `raise RuntimeError(...)` after the loop
    (Except.error (PyErr.runtimeError "LLM provider retries exhausted"),
      attempt - 1)
  | attempt, fuel + 1 =>
    match behavior attempt with
    | .ok text => (Except.ok text, attempt)
    | .err e =>
      if attempt = retries then (Except.error e, attempt)
      else callProviderLoop behavior retries (attempt + 1) fuel

/-- `LLMRouter._call_provider` for a provider whose per-attempt outcomes
are given by `behavior`: the retry loop started at attempt 1 with
`retries` iterations available. -/
def callProvider (behavior : Nat → CallOutcome) (provider : LLMProvider) :
    Except PyErr String × Nat :=
  callProviderLoop behavior provider.retries 1 provider.retries

/-- Per-provider behaviour oracle for a whole router: provider name ↦
attempt number ↦ outcome. -/
def Behaviors := String → Nat → CallOutcome

/-- Python `dict[key]` on an association list: raises `KeyError` on a
missing key. -/
def dictIndex {α : Type} (d : List (String × α)) (key : String) :
    Except PyErr α :=
  match d.find? (fun p => p.1 = key) with
  | some p => Except.ok p.2
  | none => Except.error (PyErr.keyError key)

/-- `[self._providers[name] for name in route.providers]`
(llm_router.py line 151): resolve every route provider name in the
catalog, raising `KeyError` at the first unknown name. -/
def resolveProviders (catalog : List (String × LLMProvider)) :
    List String → Except PyErr (List LLMProvider)
  | [] => Except.ok []
  | name :: rest => do
    let p ← dictIndex catalog name
    let ps ← resolveProviders catalog rest
    pure (p :: ps)

/-- The primary-fallback loop of `LLMRouter.generate`
(llm_router.py lines 157–174): try each provider in order; catch any
exception, remember it as `last_error`, continue; after the loop raise
`last_error` if set, else a `RuntimeError`.  The returned trace lists, in
order, each attempted provider's name with the number of attempts
`_call_provider` made against it. -/
def generateFallback (behaviors : Behaviors) :
    List LLMProvider → Option PyErr →
      Except PyErr String × List (String × Nat)
  | [], none =>
    (Except.error (PyErr.runtimeError "LLM routing failed without explicit exception"), [])
  | [], some e => (Except.error e, [])
  | p :: rest, _ =>
    match callProvider (behaviors p.name) p with
    | (Except.ok text, n) => (Except.ok text, [(p.name, n)])
    | (Except.error e, n) =>
      let (res, trace) := generateFallback behaviors rest (some e)
      (res, (p.name, n) :: trace)

/-- `LLMRouter.generate` after route resolution (llm_router.py lines
148–174).  `sel` abstracts the draw of
`random.choices(providers, weights=route.weights, k=1)[0]`: it is the
index of the provider the sampler picked (the RNG is an external
collaborator; any index < len(providers) can be drawn when the weights are
valid).  An out-of-range `sel` is modelled as the `ValueError` that
`random.choices` raises on invalid sampling configurations. -/
def generate (catalog : List (String × LLMProvider)) (behaviors : Behaviors)
    (route : LLMRoute) (sel : Nat) :
    Except PyErr String × List (String × Nat) :=
  match resolveProviders catalog route.providers with
  | Except.error e => (Except.error e, [])
  | Except.ok providers =>
    if route.strategy = "weighted" ∧ weightsTruthy route.weights then
      match providers.get? sel with
      | some p =>
        match callProvider (behaviors p.name) p with
        | (res, n) => (res, [(p.name, n)])
      | none => (Except.error (PyErr.valueError "random.choices"), [])
    else
      generateFallback behaviors providers none

/-! ## Text normalization and cache fingerprint (embedding_client.py 61–68) -/

/-- The whitespace characters Python's `str.split()` (no argument) splits
on, restricted to the ASCII range used by this code base: space, tab,
newline, carriage return, vertical tab, form feed. -/
def pyIsSpace (c : Char) : Bool :=
  c = ' ' ∨ c = '\t' ∨ c = '\n' ∨ c = '\r' ∨ c = '\x0b' ∨ c = '\x0c'

/-- Helper for `pySplit`: walk the characters accumulating the current
word (reversed); whitespace flushes a non-empty accumulator. -/
def pySplitAux : List Char → List Char → List (List Char)
  | [], [] => []
  | [], acc => [acc.reverse]
  | c :: cs, acc =>
    if pyIsSpace c then
      match acc with
      | [] => pySplitAux cs []
      | _ :: _ => acc.reverse :: pySplitAux cs []
    else pySplitAux cs (c :: acc)

/-- Python `text.split()`: the list of maximal whitespace-free runs of
`text`, with leading/trailing whitespace discarded. -/
def pySplit (text : String) : List String :=
  (pySplitAux text.data []).map List.asString

/-- `" ".join(text.split())` — the normalization inside
`EmbeddingClient._fingerprint`: collapse every whitespace run to a single
space and trim both ends. -/
def normalize (text : String) : String :=
  String.intercalate " " (pySplit text)

/-- The exact string hashed by `EmbeddingClient._fingerprint`:
`f"{model}::{normalized}"`.  SHA-256 itself is not modelled; it is an
arbitrary deterministic function of this input, so fingerprint equality
follows from equality of `fingerprintInput`. -/
def fingerprintInput (text model : String) : String :=
  model ++ "::" ++ normalize text

/-- `EmbeddingClient._fingerprint` with the hash abstracted: `h` stands
for `hashlib.sha256(·).hexdigest()`, a pure function of the encoded
input. -/
def fingerprintWith (h : String → String) (text model : String) : String :=
  h (fingerprintInput text model)

/-! ## Embedding dispatch (embedding_client.py, embedding_router.py,
redis_client.py) -/

/-- `EmbeddingProvider` dataclass of embedding_router.py. -/
structure EmbeddingProvider where
  name : String
  provider_type : String
  endpoint : String
  api_key : String
  model : String
  embedding_dim : Nat
  timeout_ms : Int
  retries : Nat
  deriving DecidableEq, Repr

/-- Embedding vectors.  The code never does arithmetic on the float
entries — it only measures `len(vector)` and round-trips the vector
through `json.dumps`/`json.loads` — so the entries are modelled as
opaque integers. -/
abbrev Vec := List Int

/-- Classification of a string stored in Redis under a cache key, as seen
by `_embed_single` after `json.loads`:
* `jarr v` — a non-empty (hence truthy) string that parses to a JSON
  array, i.e. a `json.dumps`-ed vector;
* `jnonlist` — a truthy string parsing to a non-list JSON value (the
  `isinstance(vector, list)` check fails, control falls through to the
  providers);
* `jbad` — a truthy string on which `json.loads` raises;
* `jempty` — the empty string, which is falsy (`if cached:` fails). -/
inductive JVal where
  | jarr (v : Vec)
  | jnonlist
  | jbad
  | jempty
  deriving DecidableEq, Repr

/-- Python truthiness of the cached string. -/
def JVal.truthy : JVal → Bool
  | .jempty => false
  | _ => true

/-- Oracle behaviour of the external collaborators of one
`_embed_single` call: the Redis cache (whose `get`/`set` both log and
re-raise on failure, redis_client.py 42–73) and the embedding providers
(one HTTP attempt each — `EmbeddingClient._call_provider` has no retry
loop).  `redisGet` yields the cached string (classified as `JVal`) or
raises; `redisSet` acknowledges the write or raises; `provCall` yields a
provider's returned vector or raises (HTTP error, timeout, normalization
`ValueError`, …). -/
structure EmbEnv where
  redisGet : String → Except PyErr (Option JVal)
  redisSet : String → Vec → Except PyErr Unit
  provCall : String → Except PyErr Vec

/-- Observable events of one `_embed_single` call, in order: the cache
read, each provider HTTP attempt, and each successful cache write. -/
inductive EmbEvent where
  | getE (key : String)
  | provCall (name : String)
  | setE (key : String) (v : Vec)
  deriving DecidableEq, Repr

/-- The provider loop of `EmbeddingClient._embed_single`
(embedding_client.py 124–161):

    last_error = None
    for provider in providers:
        try:
            vector = await self._call_provider(provider, text, trace_id)
            if len(vector) != provider.embedding_dim:
                logger.error(...); continue
            await self._redis.set(cache_key, json.dumps(vector), ...)
            return vector
        except Exception as exc:
            last_error = exc
            logger.error(...)
            if strategy == "primary-fallback":
                continue
    if last_error is not None: raise last_error
    raise RuntimeError("Embedding pipeline failed without explicit exception")

Note the `if strategy == "primary-fallback": continue` is a no-op: when
the guard is false the `except` block simply ends and the `for` loop
advances to the next provider anyway, so `strategy` never affects control
flow.  A dimension mismatch `continue`s without touching `last_error`; a
raised `redis.set` error is caught by the same `except` and becomes
`last_error`, discarding the computed vector. -/
def embedLoop (env : EmbEnv) (strategy : String) (cacheKey : String) :
    List EmbeddingProvider → Option PyErr →
      Except PyErr Vec × List EmbEvent
  | [], none =>
    (Except.error (PyErr.runtimeError "Embedding pipeline failed without explicit exception"), [])
  | [], some e => (Except.error e, [])
  | p :: rest, lastError =>
    match env.provCall p.name with
    | Except.error e =>
      let (res, tr) := embedLoop env strategy cacheKey rest (some e)
      (res, EmbEvent.provCall p.name :: tr)
    | Except.ok v =>
      if v.length ≠ p.embedding_dim then
        let (res, tr) := embedLoop env strategy cacheKey rest lastError
        (res, EmbEvent.provCall p.name :: tr)
      else
        match env.redisSet cacheKey v with
        | Except.ok _ =>
          (Except.ok v, [EmbEvent.provCall p.name, EmbEvent.setE cacheKey v])
        | Except.error e =>
          let (res, tr) := embedLoop env strategy cacheKey rest (some e)
          (res, EmbEvent.provCall p.name :: tr)

/-- The Redis key `_embed_single` derives for a text and a model
(embedding_client.py line 116).  The source key is
`"emb:" + sha256_hex(fingerprintInput)`; the hex digest is a pure
function of `fingerprintInput`, so the key is modelled as
`"emb:" ++ fingerprintInput text model` — it carries exactly the same
determining data `(model, normalize text)`. -/
def cacheKeyFor (text model : String) : String :=
  "emb:" ++ fingerprintInput text model

/-- `EmbeddingClient._embed_single` (embedding_client.py 105–161): derive
the cache key from the FIRST provider's model (`providers[0]` raises
`IndexError` on an empty list), consult the cache — a raising
`redis.get` propagates, a truthy cached JSON list short-circuits — then
run the provider loop. -/
def embedSingle (env : EmbEnv) (providers : List EmbeddingProvider)
    (strategy : String) (text : String) :
    Except PyErr Vec × List EmbEvent :=
  match providers with
  | [] => (Except.error PyErr.indexError, [])
  | primary :: _ =>
    let cacheKey := cacheKeyFor text primary.model
    match env.redisGet cacheKey with
    | Except.error e => (Except.error e, [EmbEvent.getE cacheKey])
    | Except.ok cached =>
      match cached with
      | some (JVal.jarr v) => (Except.ok v, [EmbEvent.getE cacheKey])
      | some JVal.jbad =>
        (Except.error PyErr.jsonDecodeError, [EmbEvent.getE cacheKey])
      | _ =>
        -- falsy cached value, cache miss, or cached non-list: run providers
        let (res, tr) := embedLoop env strategy cacheKey providers none
        (res, EmbEvent.getE cacheKey :: tr)

/-! ## Config load (llm_router.py 68–120, embedding_router.py 81–132)

The YAML file is parsed by the external `yaml.safe_load`; the loaders are
modelled from the point where the parsed mappings are in hand.  A parsed
provider entry is a record of optional fields (`none` = key absent from
the YAML mapping); `cfg["k"]` on an absent key raises `KeyError`,
`cfg.get("k", d)` yields the default. -/

/-- A parsed YAML provider entry. -/
structure ProviderCfg where
  provider_type : Option String := none
  endpoint : Option String := none
  api_key : Option String := none
  model : Option String := none
  embedding_dim : Option Int := none
  timeout_ms : Option Int := none
  retries : Option Int := none
  deriving DecidableEq, Repr

/-- A parsed YAML route entry. -/
structure RouteCfg where
  strategy : Option String := none
  providers : Option (List String) := none
  weights : Option (List Int) := none
  deriving DecidableEq, Repr

/-- Python `cfg["key"]`: raises `KeyError` when the key is absent. -/
def cfgField {α : Type} (v : Option α) (key : String) : Except PyErr α :=
  match v with
  | some x => Except.ok x
  | none => Except.error (PyErr.keyError key)

/-- llm_router.py 92–100: build one `LLMProvider` from its parsed entry.
Field access order matches the source: `provider_type`, `endpoint`,
`model` are required (`cfg[...]`), the rest default via `cfg.get`.
A negative configured `retries` makes `range(1, retries+1)` empty exactly
as `retries = 0` does, hence `Int.toNat`. -/
def buildLLMProvider (name : String) (cfg : ProviderCfg) :
    Except PyErr LLMProvider := do
  let pt ← cfgField cfg.provider_type "provider_type"
  let ep ← cfgField cfg.endpoint "endpoint"
  let mdl ← cfgField cfg.model "model"
  pure { name := name, provider_type := pt, endpoint := ep,
         api_key := cfg.api_key.getD "", model := mdl,
         timeout_ms := cfg.timeout_ms.getD 10000,
         retries := (cfg.retries.getD 3).toNat }

/-- embedding_router.py 103–112: build one `EmbeddingProvider`; same as
`buildLLMProvider` plus the required `embedding_dim` field. -/
def buildEmbeddingProvider (name : String) (cfg : ProviderCfg) :
    Except PyErr EmbeddingProvider := do
  let pt ← cfgField cfg.provider_type "provider_type"
  let ep ← cfgField cfg.endpoint "endpoint"
  let mdl ← cfgField cfg.model "model"
  let dim ← cfgField cfg.embedding_dim "embedding_dim"
  pure { name := name, provider_type := pt, endpoint := ep,
         api_key := cfg.api_key.getD "", model := mdl,
         embedding_dim := dim.toNat,
         timeout_ms := cfg.timeout_ms.getD 5000,
         retries := (cfg.retries.getD 3).toNat }

/-- llm_router.py 106–111: build one `LLMRoute` from its parsed entry
(`strategy` and `providers` are required, `weights` via `.get`). -/
def buildLLMRoute (name : String) (r : RouteCfg) : Except PyErr LLMRoute := do
  let st ← cfgField r.strategy "strategy"
  let ps ← cfgField r.providers "providers"
  pure { name := name, strategy := st, providers := ps, weights := r.weights }

/-- The provider loop of `from_yaml_file`: build each provider in
iteration order, propagating the first raised `KeyError`. -/
def buildProviderCatalog :
    List (String × ProviderCfg) → Except PyErr (List (String × LLMProvider))
  | [] => Except.ok []
  | (n, cfg) :: rest => do
    let p ← buildLLMProvider n cfg
    let ps ← buildProviderCatalog rest
    pure ((n, p) :: ps)

/-- The route loop of `from_yaml_file` (llm_router.py 105–115): a route
named `"default"` is set aside as the default route instead of entering
the route table (YAML mapping keys are distinct, so at most one entry is
named `"default"`). -/
def buildRouteTable :
    List (String × RouteCfg) →
      Except PyErr (List (String × LLMRoute) × Option LLMRoute)
  | [] => Except.ok ([], none)
  | (n, r) :: rest => do
    let route ← buildLLMRoute n r
    let (routes, dflt) ← buildRouteTable rest
    if n = "default" then
      pure (routes, some (dflt.getD route))
    else
      pure ((n, route) :: routes, dflt)

/-- `LLMRouter.from_yaml_file` after YAML parsing (llm_router.py 84–120):
build the catalog and the route table, then require a `"default"` route
(`ValueError` otherwise).  No other validation is performed. -/
def llmLoad (providersCfg : List (String × ProviderCfg))
    (routesCfg : List (String × RouteCfg)) :
    Except PyErr (List (String × LLMProvider) × List (String × LLMRoute) × LLMRoute) := do
  let providers ← buildProviderCatalog providersCfg
  let (routes, dflt) ← buildRouteTable routesCfg
  match dflt with
  | some d => pure (providers, routes, d)
  | none =>
    Except.error (PyErr.valueError "llm_routes.yaml must define a 'default' route")

/-- The provider loop of `EmbeddingRouter.from_yaml_file`. -/
def buildEmbeddingCatalog :
    List (String × ProviderCfg) → Except PyErr (List (String × EmbeddingProvider))
  | [] => Except.ok []
  | (n, cfg) :: rest => do
    let p ← buildEmbeddingProvider n cfg
    let ps ← buildEmbeddingCatalog rest
    pure ((n, p) :: ps)

/-- `EmbeddingRouter.from_yaml_file` after YAML parsing
(embedding_router.py 95–132).  Routes are structurally identical to LLM
routes, so the same `RouteCfg`/`LLMRoute` route model is reused. -/
def embeddingLoad (providersCfg : List (String × ProviderCfg))
    (routesCfg : List (String × RouteCfg)) :
    Except PyErr (List (String × EmbeddingProvider) × List (String × LLMRoute) × LLMRoute) := do
  let providers ← buildEmbeddingCatalog providersCfg
  let (routes, dflt) ← buildRouteTable routesCfg
  match dflt with
  | some d => pure (providers, routes, d)
  | none =>
    Except.error (PyErr.valueError "embedding_routes.yaml must define a 'default' route")

/-- Whether an `Except` value is a success (no exception raised). -/
def exceptOk {ε α : Type} : Except ε α → Bool
  | Except.ok _ => true
  | Except.error _ => false

/-! ## Route resolution (llm_router.py 122–123, embedding_router.py 134–147) -/

/-- Python `dict.get(key, default)` over an association list. -/
def dictGetD {α : Type} (d : List (String × α)) (key : String) (dflt : α) : α :=
  match d.find? (fun p => p.1 = key) with
  | some p => p.2
  | none => dflt

/-- `LLMRouter._resolve_route`: `self._routes.get(use_case, self._default_route)`. -/
def llmResolveRoute (routes : List (String × LLMRoute)) (defaultRoute : LLMRoute)
    (useCase : String) : LLMRoute :=
  dictGetD routes useCase defaultRoute

/-- `EmbeddingRouter.resolve_route`: identical lookup-with-default. -/
def embResolveRoute (routes : List (String × LLMRoute)) (defaultRoute : LLMRoute)
    (useCase : String) : LLMRoute :=
  dictGetD routes useCase defaultRoute

/-! ## Concrete configurations

Small closed instances on which the theorems below are evaluated. -/

/-- A generation provider with 3 configured retries. -/
def exP1 : LLMProvider :=
  { name := "p1", provider_type := "azure_openai",
    endpoint := "https://p1.example/v1", api_key := "", model := "gpt-4o",
    timeout_ms := 10000, retries := 3 }

/-- A second generation provider. -/
def exP2 : LLMProvider :=
  { name := "p2", provider_type := "groq",
    endpoint := "https://p2.example/v1", api_key := "", model := "llama-3",
    timeout_ms := 10000, retries := 3 }

/-- Catalog holding both providers. -/
def exCatalog : List (String × LLMProvider) := [("p1", exP1), ("p2", exP2)]

/-- Behaviour oracle: `p1` fails every attempt with a timeout (a transient
error); every other provider succeeds on every attempt. -/
def exBehaviors : Behaviors := fun name _ =>
  if name = "p1" then CallOutcome.err PyErr.timeoutError
  else CallOutcome.ok "p2 text"

/-- Behaviour of a provider failing every attempt with an HTTP 400, a
non-transient (4xx-equivalent) error. -/
def exBehavior400 : Nat → CallOutcome := fun _ =>
  CallOutcome.err (PyErr.httpStatusError 400)

/-- A primary-fallback route over `[p1, p2]`. -/
def exFallbackRoute : LLMRoute :=
  { name := "authoring.generate", strategy := "primary-fallback",
    providers := ["p1", "p2"] }

/-- A weighted route over `[p1, p2]` with weights present. -/
def exWeightedRoute : LLMRoute :=
  { name := "vkis.generate", strategy := "weighted",
    providers := ["p1", "p2"], weights := some [3, 1] }

/-- A route declared `weighted` but with no weights list (`None`). -/
def exWeightedNone : LLMRoute :=
  { name := "vkis.generate", strategy := "weighted",
    providers := ["p1", "p2"], weights := none }

/-- A route declared `weighted` with an empty (falsy) weights list. -/
def exWeightedEmpty : LLMRoute :=
  { name := "vkis.generate", strategy := "weighted",
    providers := ["p1", "p2"], weights := some [] }

/-- A default generation route. -/
def exDefaultRoute : LLMRoute :=
  { name := "default", strategy := "primary-fallback", providers := ["p1"] }

/-- A route table holding one explicit use case. -/
def exRouteTable : List (String × LLMRoute) :=
  [("authoring.generate", exFallbackRoute)]

/-- Embedding provider A, expected dimension 3. -/
def exEA : EmbeddingProvider :=
  { name := "embA", provider_type := "azure_openai",
    endpoint := "https://a.example", api_key := "",
    model := "text-embedding-3-large", embedding_dim := 3,
    timeout_ms := 5000, retries := 3 }

/-- Embedding provider B, expected dimension 2. -/
def exEB : EmbeddingProvider :=
  { name := "embB", provider_type := "groq",
    endpoint := "https://b.example", api_key := "",
    model := "nomic-embed", embedding_dim := 2,
    timeout_ms := 5000, retries := 3 }

/-- Cold cache, reliable Redis; provider `embA` raises an HTTP 503 and
every other provider returns the two-dimensional vector `[5, 6]`. -/
def exEnvAFails : EmbEnv :=
  { redisGet := fun _ => Except.ok none,
    redisSet := fun _ _ => Except.ok (),
    provCall := fun n =>
      if n = "embA" then Except.error (PyErr.httpStatusError 503)
      else Except.ok [5, 6] }

/-- Warm cache: every key holds the JSON array `[1, 2, 3]`; providers
would raise if they were ever called. -/
def exEnvHit : EmbEnv :=
  { redisGet := fun _ => Except.ok (some (JVal.jarr [1, 2, 3])),
    redisSet := fun _ _ => Except.ok (),
    provCall := fun _ => Except.error PyErr.connectionError }

/-- Redis whose `get` raises (connection refused); providers succeed with
a dimension-3 vector. -/
def exEnvGetFail : EmbEnv :=
  { redisGet := fun _ => Except.error (PyErr.redisError "connection refused"),
    redisSet := fun _ _ => Except.ok (),
    provCall := fun _ => Except.ok [1, 2, 3] }

/-- Redis whose `set` raises; cold cache; providers succeed with a
dimension-3 vector. -/
def exEnvSetFail : EmbEnv :=
  { redisGet := fun _ => Except.ok none,
    redisSet := fun _ _ => Except.error (PyErr.redisError "write failed"),
    provCall := fun _ => Except.ok [1, 2, 3] }

/-- Embedding provider configured with `embedding_dim = 768`. -/
def exE768 : EmbeddingProvider :=
  { name := "e768", provider_type := "azure_openai",
    endpoint := "https://c.example", api_key := "", model := "emb-768",
    embedding_dim := 768, timeout_ms := 5000, retries := 3 }

/-- Embedding provider configured with `embedding_dim = 3072`. -/
def exE3072 : EmbeddingProvider :=
  { name := "e3072", provider_type := "azure_openai",
    endpoint := "https://d.example", api_key := "", model := "emb-3072",
    embedding_dim := 3072, timeout_ms := 5000, retries := 3 }

/-- Cold cache; every provider returns a 512-dimensional vector. -/
def exEnvDim512 : EmbEnv :=
  { redisGet := fun _ => Except.ok none,
    redisSet := fun _ _ => Except.ok (),
    provCall := fun _ => Except.ok (List.replicate 512 0) }

/-- Cold cache; every provider returns a 7-dimensional vector. -/
def exEnvDim7 : EmbEnv :=
  { redisGet := fun _ => Except.ok none,
    redisSet := fun _ _ => Except.ok (),
    provCall := fun _ => Except.ok (List.replicate 7 0) }

/-- A complete parsed provider entry (all fields present). -/
def exPCfg : ProviderCfg :=
  { provider_type := some "azure_openai",
    endpoint := some "https://a.example", api_key := some "key",
    model := some "gpt-4o", embedding_dim := some 1536,
    timeout_ms := some 10000, retries := some 3 }

/-- A parsed provider entry missing the required `provider_type` field. -/
def exPCfgNoType : ProviderCfg :=
  { endpoint := some "https://a.example", model := some "gpt-4o" }

/-- A parsed provider section with two complete entries. -/
def exProvidersCfg : List (String × ProviderCfg) :=
  [("p1", exPCfg), ("p2", exPCfg)]

/-- A parsed routes section containing a `default` route, a weighted
route with weights `[1, 0]` (a zero weight), and a route referencing a
provider name absent from the provider section. -/
def exRoutesCfg : List (String × RouteCfg) :=
  [("default",
    { strategy := some "primary-fallback", providers := some ["p1"] }),
   ("vkis.embedding",
    { strategy := some "weighted", providers := some ["p1", "p2"],
      weights := some [1, 0] }),
   ("ghost.route",
    { strategy := some "primary-fallback",
      providers := some ["no-such-provider"] })]

/-- A parsed routes section with no `default` entry. -/
def exRoutesCfgNoDefault : List (String × RouteCfg) :=
  [("vkis.embedding",
    { strategy := some "primary-fallback", providers := some ["p1"] })]

/-! ## Retry loop lemmas -/

/-- If every attempt in `[attempt, retries]` fails, the retry loop stops
at attempt `retries` and re-raises that attempt's exception, having made
`retries` attempts in total. -/
theorem callProviderLoop_allFail (behavior : Nat → CallOutcome) (r : Nat)
    (e : Nat → PyErr)
    (hb : ∀ i, 1 ≤ i → i ≤ r → behavior i = CallOutcome.err (e i)) :
    ∀ fuel attempt, 1 ≤ attempt → attempt ≤ r → attempt + fuel = r + 1 →
      callProviderLoop behavior r attempt fuel = (Except.error (e r), r) := by
  intro fuel
  induction fuel with
  | zero => intro attempt h1 h2 h3; omega
  | succ n ih =>
    intro attempt h1 h2 h3
    simp only [callProviderLoop]
    rw [hb attempt h1 h2]
    by_cases har : attempt = r
    · subst har; simp
    · simp only [if_neg har]
      exact ih (attempt + 1) (by omega) (by omega) (by omega)

/-- `_call_provider` against a provider failing every attempt makes
exactly `provider.retries` attempts and raises the last failure. -/
theorem callProvider_allFail (behavior : Nat → CallOutcome)
    (p : LLMProvider) (e : Nat → PyErr) (hr : 1 ≤ p.retries)
    (hb : ∀ i, 1 ≤ i → i ≤ p.retries → behavior i = CallOutcome.err (e i)) :
    callProvider behavior p = (Except.error (e p.retries), p.retries) :=
  callProviderLoop_allFail behavior p.retries e hb p.retries 1 (le_refl 1) hr
    (by omega)

/-- `_call_provider` against a provider succeeding on its first attempt
returns that result after a single attempt. -/
theorem callProvider_firstOk (behavior : Nat → CallOutcome)
    (p : LLMProvider) (t : String) (hr : 1 ≤ p.retries)
    (hb : behavior 1 = CallOutcome.ok t) :
    callProvider behavior p = (Except.ok t, 1) := by
  obtain ⟨n, hn⟩ : ∃ n, p.retries = n + 1 := ⟨p.retries - 1, by omega⟩
  rw [callProvider, hn]
  simp [callProviderLoop, hb]

/-! ## C2 — primary-fallback retry/fallback behaviour -/

/-- C2 counterexample.  Route `[p1, p2]` with strategy `primary-fallback`;
`p1` (`retries = 3`) fails every attempt with a timeout and `p2` succeeds.
`generate` returns p2's result after exactly **3** attempts against p1 —
not the `maxRetries + 1 = 4` total attempts the claim states. -/
theorem generate_retryCount_counterexample :
    exP1.retries = 3 ∧
    generate exCatalog exBehaviors exFallbackRoute 0 =
      (Except.ok "p2 text", [("p1", 3), ("p2", 1)]) ∧
    (3 : Nat) ≠ exP1.retries + 1 := by decide

/-- C2 (amended): for a `primary-fallback` route `[P1, P2]` where every
attempt against P1 fails with a transient error and P2 succeeds,
`generate` returns P2's result, making exactly `P1.retries` attempts
against P1 (the configured `retries` value, not `retries + 1`) and then
one attempt against P2.  The source performs no wait between consecutive
attempts: the retry loop of `_call_provider` (llm_router.py 194–218)
contains no sleep/backoff call, so retries are immediate. -/
theorem generate_fallback_after_exhausting_p1
    (catalog : List (String × LLMProvider)) (behaviors : Behaviors)
    (route : LLMRoute) (p1 p2 : LLMProvider) (e : Nat → PyErr) (t : String)
    (sel : Nat)
    (hstrat : route.strategy = "primary-fallback")
    (hres : resolveProviders catalog route.providers = Except.ok [p1, p2])
    (hr1 : 1 ≤ p1.retries) (hr2 : 1 ≤ p2.retries)
    (hb1 : ∀ i, 1 ≤ i → i ≤ p1.retries →
      behaviors p1.name i = CallOutcome.err (e i))
    (_htrans : ∀ i, (e i).isTransient = true)
    (hb2 : behaviors p2.name 1 = CallOutcome.ok t) :
    generate catalog behaviors route sel =
      (Except.ok t, [(p1.name, p1.retries), (p2.name, 1)]) := by
  rw [generate, hres]
  have hne : ¬(route.strategy = "weighted" ∧ weightsTruthy route.weights) := by
    intro h
    rw [hstrat] at h
    exact absurd h.1 (by decide)
  dsimp only
  rw [if_neg hne]
  simp only [generateFallback,
    callProvider_allFail (behaviors p1.name) p1 e hr1 hb1,
    callProvider_firstOk (behaviors p2.name) p2 t hr2 hb2]

/-- Evaluation of `generate_fallback_after_exhausting_p1` on the concrete
route `[p1, p2]`. -/
theorem generate_fallback_after_exhausting_p1_witness :
    generate exCatalog exBehaviors exFallbackRoute 0 =
      (Except.ok "p2 text", [("p1", 3), ("p2", 1)]) :=
  generate_fallback_after_exhausting_p1 exCatalog exBehaviors exFallbackRoute
    exP1 exP2 (fun _ => PyErr.timeoutError) "p2 text" 0 rfl (by decide)
    (by decide) (by decide) (fun _ _ _ => rfl) (fun _ => rfl) rfl

/-! ## C7 — no transient/non-transient distinction in the retry loop -/

/-- C7 counterexample.  A provider with `retries = 3` failing every
attempt with HTTP 400 — a non-transient, 4xx-equivalent error — is
attempted **3** times, not raised after the first attempt as the claim
states: the `except Exception` clause of `_call_provider` retries every
failure kind. -/
theorem nonTransient_retried_counterexample :
    PyErr.isTransient (PyErr.httpStatusError 400) = false ∧
    callProvider exBehavior400 exP1 =
      (Except.error (PyErr.httpStatusError 400), 3) ∧
    (3 : Nat) ≠ 1 := by decide

/-- C7 (amended): the retry loop draws no distinction between transient
and non-transient failures.  A provider failing on every attempt —
whatever the error kinds, 4xx-equivalent and schema violations included —
consumes its full retry budget: exactly `provider.retries` attempts are
made and the final attempt's failure is what reaches the fallback
decision point. -/
theorem allFailures_retried_uniformly (behavior : Nat → CallOutcome)
    (p : LLMProvider) (e : Nat → PyErr) (hr : 1 ≤ p.retries)
    (hb : ∀ i, 1 ≤ i → i ≤ p.retries → behavior i = CallOutcome.err (e i)) :
    callProvider behavior p = (Except.error (e p.retries), p.retries) :=
  callProvider_allFail behavior p e hr hb

/-- Evaluation of `allFailures_retried_uniformly` on the concrete
always-HTTP-400 provider. -/
theorem allFailures_retried_uniformly_witness :
    callProvider exBehavior400 exP1 =
      (Except.error (PyErr.httpStatusError 400), 3) :=
  allFailures_retried_uniformly exBehavior400 exP1
    (fun _ => PyErr.httpStatusError 400) (by decide) (fun _ _ _ => rfl)

/-! ## C1 — weighted strategy: generate vs. embed -/

/-- The `strategy` argument never affects the provider loop of
`_embed_single`: the `if strategy == "primary-fallback": continue` at
embedding_client.py 155–157 is a no-op, because when its guard is false
the `except` block simply ends and the `for` loop advances to the next
provider anyway. -/
theorem embedLoop_strategy_irrelevant (env : EmbEnv) (s₁ s₂ key : String) :
    ∀ (ps : List EmbeddingProvider) (lastErr : Option PyErr),
      embedLoop env s₁ key ps lastErr = embedLoop env s₂ key ps lastErr := by
  intro ps
  induction ps with
  | nil => intro lastErr; cases lastErr <;> rfl
  | cons p rest ih =>
    intro lastErr
    simp only [embedLoop]
    cases env.provCall p.name with
    | error e => dsimp only; rw [ih]
    | ok v =>
      dsimp only
      by_cases hd : v.length ≠ p.embedding_dim
      · simp only [if_pos hd, ih]
      · simp only [if_neg hd]
        cases env.redisSet key v with
        | ok u => rfl
        | error e => dsimp only; rw [ih]

/-- `_embed_single` computes the same result and the same event trace
whatever strategy string the route carries. -/
theorem embedSingle_strategy_irrelevant (env : EmbEnv)
    (providers : List EmbeddingProvider) (s₁ s₂ text : String) :
    embedSingle env providers s₁ text = embedSingle env providers s₂ text := by
  cases providers with
  | nil => rfl
  | cons primary rest =>
    simp only [embedSingle]
    cases env.redisGet (cacheKeyFor text primary.model) with
    | error e => rfl
    | ok cached =>
      match cached with
      | some (JVal.jarr v) => rfl
      | some JVal.jbad => rfl
      | some JVal.jnonlist =>
        dsimp only
        rw [embedLoop_strategy_irrelevant env s₁ s₂]
      | some JVal.jempty =>
        dsimp only
        rw [embedLoop_strategy_irrelevant env s₁ s₂]
      | none =>
        dsimp only
        rw [embedLoop_strategy_irrelevant env s₁ s₂]

/-- For `generate`, a weighted route with truthy weights calls exactly
the sampled provider: the attempt trace names only that provider, and its
outcome — error included — is returned as-is. -/
theorem generate_weighted_single_provider
    (catalog : List (String × LLMProvider)) (behaviors : Behaviors)
    (route : LLMRoute) (provs : List LLMProvider) (p : LLMProvider)
    (sel : Nat)
    (hstrat : route.strategy = "weighted")
    (hw : weightsTruthy route.weights = true)
    (hres : resolveProviders catalog route.providers = Except.ok provs)
    (hsel : provs.get? sel = some p) :
    generate catalog behaviors route sel =
      ((callProvider (behaviors p.name) p).1,
       [(p.name, (callProvider (behaviors p.name) p).2)]) := by
  rw [generate, hres]
  dsimp only
  rw [if_pos ⟨hstrat, hw⟩, hsel]

/-- C1 counterexample, for the `embed` half of the claim.  An embedding
dispatch whose route strategy is `weighted`: provider `embA` fails with
HTTP 503, yet the next listed provider `embB` **is** attempted (both
`provCall` events appear in the trace) and `embB`'s vector is returned
instead of `embA`'s error being surfaced.  `_embed_single` performs no
weighted sampling at all — the route's weights are never even passed to
it (embedding_client.py line 99 forwards only `route.strategy`). -/
theorem weighted_embed_fallback_counterexample :
    embedSingle exEnvAFails [exEA, exEB] "weighted" "hello" =
      (Except.ok [5, 6],
       [EmbEvent.getE (cacheKeyFor "hello" exEA.model),
        EmbEvent.provCall "embA", EmbEvent.provCall "embB",
        EmbEvent.setE (cacheKeyFor "hello" exEA.model) [5, 6]]) := by decide

/-- C1 (amended): the weighted-strategy contract holds for `generate`
only.  (1) `generate` on a weighted route with a present, non-empty
weights list dispatches to exactly the one provider picked by
`random.choices` (abstracted as the sampled index `sel`): no other listed
provider is attempted and the chosen provider's outcome — its terminal
error included — is surfaced directly.  (2) `embed` does not implement
weighted selection: `_embed_single` behaves identically to
`primary-fallback` for every strategy string, attempting providers in
list order with fall-through on failure. -/
theorem weighted_single_attempt_generate_only :
    (∀ (catalog : List (String × LLMProvider)) (behaviors : Behaviors)
       (route : LLMRoute) (provs : List LLMProvider) (p : LLMProvider)
       (sel : Nat),
       route.strategy = "weighted" → weightsTruthy route.weights = true →
       resolveProviders catalog route.providers = Except.ok provs →
       provs.get? sel = some p →
       generate catalog behaviors route sel =
         ((callProvider (behaviors p.name) p).1,
          [(p.name, (callProvider (behaviors p.name) p).2)])) ∧
    (∀ (env : EmbEnv) (providers : List EmbeddingProvider) (strategy text : String),
       embedSingle env providers strategy text =
         embedSingle env providers "primary-fallback" text) :=
  ⟨fun catalog behaviors route provs p sel hstrat hw hres hsel =>
     generate_weighted_single_provider catalog behaviors route provs p sel
       hstrat hw hres hsel,
   fun env providers strategy text =>
     embedSingle_strategy_irrelevant env providers strategy "primary-fallback" text⟩

/-- Evaluation of `weighted_single_attempt_generate_only`: the weighted
route `[p1, p2]` with `p1` sampled surfaces `p1`'s terminal timeout with
no attempt on `p2`; the weighted embedding dispatch coincides with the
primary-fallback one. -/
theorem weighted_single_attempt_generate_only_witness :
    (generate exCatalog exBehaviors exWeightedRoute 0 =
      (Except.error PyErr.timeoutError, [("p1", 3)])) ∧
    (embedSingle exEnvAFails [exEA, exEB] "weighted" "hello" =
      embedSingle exEnvAFails [exEA, exEB] "primary-fallback" "hello") :=
  ⟨(weighted_single_attempt_generate_only.1 exCatalog exBehaviors
      exWeightedRoute [exP1, exP2] exP1 0 rfl (by decide) (by decide)
      rfl).trans (by decide),
   weighted_single_attempt_generate_only.2 exEnvAFails [exEA, exEB]
     "weighted" "hello"⟩

/-! ## C10 — weighted route with falsy weights -/

/-- C10: a generation route declared `weighted` whose weights list is
`None` or empty silently falls through to the primary-fallback path: the
guard `route.strategy == "weighted" and route.weights` is falsy, so
`generate` runs the ordered provider loop — each listed provider
attempted until one succeeds — exactly as if the strategy were
`primary-fallback`, and the sampled index is never consulted. -/
theorem weighted_route_without_weights_uses_fallback
    (catalog : List (String × LLMProvider)) (behaviors : Behaviors)
    (route : LLMRoute) (sel sel' : Nat)
    (_hstrat : route.strategy = "weighted")
    (hw : weightsTruthy route.weights = false) :
    generate catalog behaviors route sel =
      generate catalog behaviors
        { route with strategy := "primary-fallback" } sel' := by
  rw [generate, generate]
  dsimp only
  cases hres : resolveProviders catalog route.providers with
  | error e => rfl
  | ok provs =>
    have h1 : ¬(route.strategy = "weighted" ∧ weightsTruthy route.weights) := by
      intro h
      rw [hw] at h
      exact absurd h.2 (by decide)
    have h2 : ¬(("primary-fallback" : String) = "weighted" ∧
        weightsTruthy route.weights) := by
      intro h
      exact absurd h.1 (by decide)
    dsimp only
    rw [if_neg h1, if_neg h2]

/-- Evaluation of `weighted_route_without_weights_uses_fallback` on the
weighted routes with `weights = None` and `weights = []`: the sampled
index (here 5) is irrelevant and dispatch equals the primary-fallback
dispatch of the same provider list. -/
theorem weighted_route_without_weights_uses_fallback_witness :
    (generate exCatalog exBehaviors exWeightedNone 5 =
      generate exCatalog exBehaviors
        { exWeightedNone with strategy := "primary-fallback" } 0) ∧
    (generate exCatalog exBehaviors exWeightedEmpty 5 =
      generate exCatalog exBehaviors
        { exWeightedEmpty with strategy := "primary-fallback" } 0) :=
  ⟨weighted_route_without_weights_uses_fallback exCatalog exBehaviors
     exWeightedNone 5 0 rfl rfl,
   weighted_route_without_weights_uses_fallback exCatalog exBehaviors
     exWeightedEmpty 5 0 rfl rfl⟩

/-! ## C3 — cache failures reach the caller -/

/-- C3 (code bug in the source): cache failures DO propagate out of
`embed`, contradicting the documented best-effort cache design.
(1) A raising `redis.get` escapes `_embed_single` before any provider is
attempted: `RedisClient.get` logs and **re-raises** (redis_client.py
47–51) and the call at embedding_client.py line 117 is unguarded.
(2) A raising `redis.set` after a successful provider call is caught by
the provider loop's `except Exception`, the successfully computed vector
is discarded, and — no further candidate remaining — the Redis error
itself is raised to the caller instead of the vector being returned. -/
theorem cache_errors_propagate_bug :
    (embedSingle exEnvGetFail [exEA] "primary-fallback" "hello" =
      (Except.error (PyErr.redisError "connection refused"),
       [EmbEvent.getE (cacheKeyFor "hello" exEA.model)])) ∧
    (embedSingle exEnvSetFail [exEA] "primary-fallback" "hello" =
      (Except.error (PyErr.redisError "write failed"),
       [EmbEvent.getE (cacheKeyFor "hello" exEA.model),
        EmbEvent.provCall "embA"])) := by decide

/-! ## C5 — cache key fixed to the primary candidate's model -/

/-- Every successful cache write performed by the provider loop uses the
one key the loop was given. -/
theorem embedLoop_setE_key (env : EmbEnv) (s key : String) :
    ∀ (ps : List EmbeddingProvider) (lastErr : Option PyErr) (k : String)
      (v : Vec),
      EmbEvent.setE k v ∈ (embedLoop env s key ps lastErr).2 → k = key := by
  intro ps
  induction ps with
  | nil =>
    intro lastErr k v h
    cases lastErr <;> simp [embedLoop] at h
  | cons p rest ih =>
    intro lastErr k v h
    simp only [embedLoop] at h
    cases henv : env.provCall p.name with
    | error e =>
      rw [henv] at h
      dsimp only at h
      rcases List.mem_cons.mp h with h1 | h1
      · simp at h1
      · exact ih (some e) k v h1
    | ok w =>
      rw [henv] at h
      dsimp only at h
      by_cases hd : w.length ≠ p.embedding_dim
      · rw [if_pos hd] at h
        rcases List.mem_cons.mp h with h1 | h1
        · simp at h1
        · exact ih lastErr k v h1
      · rw [if_neg hd] at h
        cases hset : env.redisSet key w with
        | ok u =>
          rw [hset] at h
          dsimp only at h
          rcases List.mem_cons.mp h with h1 | h1
          · simp at h1
          · rcases List.mem_cons.mp h1 with h2 | h2
            · injection h2 with hk hv
            · simp at h2
        | error e =>
          rw [hset] at h
          dsimp only at h
          rcases List.mem_cons.mp h with h1 | h1
          · simp at h1
          · exact ih (some e) k v h1

/-- If the provider loop returns a vector, a successful cache write of
that vector under the loop's key appears in its trace — whichever
provider in the chain produced it. -/
theorem embedLoop_ok_stores (env : EmbEnv) (s key : String) :
    ∀ (ps : List EmbeddingProvider) (lastErr : Option PyErr) (v : Vec),
      (embedLoop env s key ps lastErr).1 = Except.ok v →
      EmbEvent.setE key v ∈ (embedLoop env s key ps lastErr).2 := by
  intro ps
  induction ps with
  | nil =>
    intro lastErr v h
    cases lastErr <;> simp [embedLoop] at h
  | cons p rest ih =>
    intro lastErr v h
    simp only [embedLoop] at h ⊢
    cases henv : env.provCall p.name with
    | error e =>
      rw [henv] at h
      dsimp only at h ⊢
      exact List.mem_cons_of_mem _ (ih (some e) v h)
    | ok w =>
      rw [henv] at h
      dsimp only at h ⊢
      by_cases hd : w.length ≠ p.embedding_dim
      · simp only [if_pos hd] at h ⊢
        exact List.mem_cons_of_mem _ (ih lastErr v h)
      · simp only [if_neg hd] at h ⊢
        cases hset : env.redisSet key w with
        | ok u =>
          rw [hset] at h
          dsimp only at h ⊢
          injection h with hw
          rw [← hw]
          simp
        | error e =>
          rw [hset] at h
          dsimp only at h ⊢
          exact List.mem_cons_of_mem _ (ih (some e) v h)

/-- C5: the cache key of an embedding call is derived from the first
(primary) candidate's model and the normalized text, and is fixed for the
whole call: (a) every successful cache write of the call — including one
whose vector was produced by a fallback provider — happens under
`cacheKeyFor text primary.model`; (b) a cache hit under that key returns
the cached vector with no provider attempted; (c) on a cache miss,
whichever provider in the chain produces the returned vector, that vector
is stored under the same primary-model key. -/
theorem cache_key_fixed_to_primary_model (env : EmbEnv)
    (primary : EmbeddingProvider) (rest : List EmbeddingProvider)
    (strategy text : String) :
    (∀ k v,
       EmbEvent.setE k v ∈ (embedSingle env (primary :: rest) strategy text).2 →
       k = cacheKeyFor text primary.model) ∧
    (∀ v,
       env.redisGet (cacheKeyFor text primary.model) =
         Except.ok (some (JVal.jarr v)) →
       embedSingle env (primary :: rest) strategy text =
         (Except.ok v, [EmbEvent.getE (cacheKeyFor text primary.model)])) ∧
    (∀ v,
       env.redisGet (cacheKeyFor text primary.model) = Except.ok none →
       (embedSingle env (primary :: rest) strategy text).1 = Except.ok v →
       EmbEvent.setE (cacheKeyFor text primary.model) v ∈
         (embedSingle env (primary :: rest) strategy text).2) := by
  refine ⟨?_, ?_, ?_⟩
  · intro k v h
    simp only [embedSingle] at h
    cases hget : env.redisGet (cacheKeyFor text primary.model) with
    | error e =>
      rw [hget] at h
      simp at h
    | ok cached =>
      rw [hget] at h
      match cached with
      | some (JVal.jarr w) => simp at h
      | some JVal.jbad => simp at h
      | some JVal.jnonlist =>
        dsimp only at h
        rcases List.mem_cons.mp h with h1 | h1
        · simp at h1
        · exact embedLoop_setE_key env strategy _ _ none k v h1
      | some JVal.jempty =>
        dsimp only at h
        rcases List.mem_cons.mp h with h1 | h1
        · simp at h1
        · exact embedLoop_setE_key env strategy _ _ none k v h1
      | none =>
        dsimp only at h
        rcases List.mem_cons.mp h with h1 | h1
        · simp at h1
        · exact embedLoop_setE_key env strategy _ _ none k v h1
  · intro v hget
    simp only [embedSingle]
    rw [hget]
  · intro v hget h
    simp only [embedSingle] at h ⊢
    rw [hget] at h ⊢
    dsimp only at h ⊢
    exact List.mem_cons_of_mem _ (embedLoop_ok_stores env strategy _ _ none v h)

/-- Evaluation of `cache_key_fixed_to_primary_model`: a warm cache via
the primary key short-circuits the providers; on a cold cache with the
primary provider failing, the fallback provider's vector `[5, 6]` is
stored under the *primary* model's key. -/
theorem cache_key_fixed_to_primary_model_witness :
    (embedSingle exEnvHit [exEA, exEB] "primary-fallback" "hello" =
      (Except.ok [1, 2, 3],
       [EmbEvent.getE (cacheKeyFor "hello" exEA.model)])) ∧
    (EmbEvent.setE (cacheKeyFor "hello" exEA.model) [5, 6] ∈
      (embedSingle exEnvAFails [exEA, exEB] "weighted" "hello").2) :=
  ⟨(cache_key_fixed_to_primary_model exEnvHit exEA [exEB] "primary-fallback"
      "hello").2.1 [1, 2, 3] rfl,
   (cache_key_fixed_to_primary_model exEnvAFails exEA [exEB] "weighted"
      "hello").2.2 [5, 6] rfl (by decide)⟩

/-! ## C6 — dimension mismatch: fallback yes, diagnostic error no -/

/-- C6 counterexample: two exhausted dispatches whose only failures are
dimension mismatches — on different providers, with different expected
(768 vs. 3072) and actual (512 vs. 7) dimensions — fail with the *same*
constant generic `RuntimeError`.  A dimension mismatch never sets
`last_error` (the `continue` at embedding_client.py line 137 skips it),
so the terminal error carries no underlying failure, and no
`AllProvidersExhausted`-like error type exists in the code. -/
theorem exhaustion_error_carries_nothing_counterexample :
    (embedSingle exEnvDim512 [exE768] "primary-fallback" "x").1 =
      Except.error (PyErr.runtimeError
        "Embedding pipeline failed without explicit exception") ∧
    (embedSingle exEnvDim7 [exE3072] "primary-fallback" "y").1 =
      (embedSingle exEnvDim512 [exE768] "primary-fallback" "x").1 ∧
    exE768 ≠ exE3072 := by decide

/-- C6 (amended): a vector failing the `len(vector) == embedding_dim`
check is rejected without a second attempt on that provider, and dispatch
falls through to the remaining candidates with `last_error` unchanged;
when no candidates remain the call fails, but with the constant generic
`RuntimeError` — carrying no underlying error — whenever every rejection
was a dimension mismatch (only a provider that *raised* leaves an error
to re-raise). -/
theorem dimension_mismatch_falls_through (env : EmbEnv)
    (A : EmbeddingProvider) (rest : List EmbeddingProvider)
    (strategy text : String) (v : Vec)
    (hmiss : env.redisGet (cacheKeyFor text A.model) = Except.ok none)
    (hA : env.provCall A.name = Except.ok v)
    (hdim : v.length ≠ A.embedding_dim) :
    embedSingle env (A :: rest) strategy text =
      ((embedLoop env strategy (cacheKeyFor text A.model) rest none).1,
       EmbEvent.getE (cacheKeyFor text A.model) :: EmbEvent.provCall A.name ::
         (embedLoop env strategy (cacheKeyFor text A.model) rest none).2) ∧
    (rest = [] →
      embedSingle env (A :: rest) strategy text =
        (Except.error (PyErr.runtimeError
           "Embedding pipeline failed without explicit exception"),
         [EmbEvent.getE (cacheKeyFor text A.model),
          EmbEvent.provCall A.name])) := by
  have hmain : embedSingle env (A :: rest) strategy text =
      ((embedLoop env strategy (cacheKeyFor text A.model) rest none).1,
       EmbEvent.getE (cacheKeyFor text A.model) :: EmbEvent.provCall A.name ::
         (embedLoop env strategy (cacheKeyFor text A.model) rest none).2) := by
    simp only [embedSingle]
    rw [hmiss]
    dsimp only
    simp only [embedLoop]
    rw [hA]
    dsimp only
    rw [if_pos hdim]
  refine ⟨hmain, ?_⟩
  intro hrest
  subst hrest
  rw [hmain]
  rfl

/-- Evaluation of `dimension_mismatch_falls_through`: a provider
configured with `embedding_dim = 768` returning a 512-length vector is
rejected, and with no candidate left the call fails with the generic
error. -/
theorem dimension_mismatch_falls_through_witness :
    embedSingle exEnvDim512 [exE768] "primary-fallback" "x" =
      (Except.error (PyErr.runtimeError
         "Embedding pipeline failed without explicit exception"),
       [EmbEvent.getE (cacheKeyFor "x" exE768.model),
        EmbEvent.provCall "e768"]) :=
  (dimension_mismatch_falls_through exEnvDim512 exE768 [] "primary-fallback"
    "x" (List.replicate 512 0) rfl rfl (by decide)).2 rfl

/-! ## C8 — fingerprint stability under whitespace-only edits -/

/-- C8: `" ".join(text.split())` depends only on the sequence of maximal
whitespace-free runs (words) of the text.  Two texts that differ only in
their whitespace runs — formalized as having equal `pySplit` word
sequences — normalize to the same string, hence produce the same
fingerprint input and (the SHA-256 digest being a pure function of that
input) the same cache fingerprint for the same model under any hash. -/
theorem fingerprint_stable_under_whitespace_edits (t₁ t₂ : String)
    (hw : pySplit t₁ = pySplit t₂) :
    normalize t₁ = normalize t₂ ∧
    ∀ (h : String → String) (model : String),
      fingerprintWith h t₁ model = fingerprintWith h t₂ model := by
  have hn : normalize t₁ = normalize t₂ := by
    rw [normalize, normalize, hw]
  refine ⟨hn, fun h model => ?_⟩
  rw [fingerprintWith, fingerprintWith, fingerprintInput, fingerprintInput, hn]

/-- Evaluation of `fingerprint_stable_under_whitespace_edits` at the
spec's example pair: `"a  b\n\nc"` and `"a b c"` carry the same words,
so they normalize identically — and indeed both normalize to
`"a b c"` (whitespace runs collapsed to single spaces, ends trimmed). -/
theorem fingerprint_stable_under_whitespace_edits_witness :
    pySplit "a  b\n\nc" = pySplit "a b c" ∧
    normalize "a  b\n\nc" = normalize "a b c" ∧
    normalize "a  b\n\nc" = "a b c" ∧
    normalize "  a  b\n\nc \t" = "a b c" :=
  ⟨by decide,
   (fingerprint_stable_under_whitespace_edits "a  b\n\nc" "a b c" (by decide)).1,
   by decide, by decide⟩

/-! ## C9 — route resolution: total exact-match lookup with default -/

/-- C9: route resolution in both routers is the pure, total lookup
`self._routes.get(use_case, self._default_route)`: a use case with an
explicit route-table entry resolves to that entry's route, and any other
use case resolves to the `default` route.  Both functions are total —
like `dict.get`, no failure path exists. -/
theorem resolveRoute_exact_match_or_default :
    (∀ (routes : List (String × LLMRoute)) (dflt : LLMRoute) (uc : String)
       (r : String × LLMRoute),
       routes.find? (fun q => q.1 = uc) = some r →
       llmResolveRoute routes dflt uc = r.2 ∧
       embResolveRoute routes dflt uc = r.2) ∧
    (∀ (routes : List (String × LLMRoute)) (dflt : LLMRoute) (uc : String),
       routes.find? (fun q => q.1 = uc) = none →
       llmResolveRoute routes dflt uc = dflt ∧
       embResolveRoute routes dflt uc = dflt) := by
  refine ⟨fun routes dflt uc r h => ?_, fun routes dflt uc h => ?_⟩
  · have hres : dictGetD routes uc dflt = r.2 := by rw [dictGetD, h]
    exact ⟨hres, hres⟩
  · have hres : dictGetD routes uc dflt = dflt := by rw [dictGetD, h]
    exact ⟨hres, hres⟩

/-- Evaluation of `resolveRoute_exact_match_or_default`: the explicitly
routed use case resolves to its own route; the unknown use case
`"nonexistent.case"` resolves to the `default` route in both routers. -/
theorem resolveRoute_exact_match_or_default_witness :
    llmResolveRoute exRouteTable exDefaultRoute "authoring.generate" =
      exFallbackRoute ∧
    llmResolveRoute exRouteTable exDefaultRoute "nonexistent.case" =
      exDefaultRoute ∧
    embResolveRoute exRouteTable exDefaultRoute "nonexistent.case" =
      exDefaultRoute :=
  ⟨(resolveRoute_exact_match_or_default.1 exRouteTable exDefaultRoute
      "authoring.generate" ("authoring.generate", exFallbackRoute)
      (by decide)).1,
   (resolveRoute_exact_match_or_default.2 exRouteTable exDefaultRoute
      "nonexistent.case" (by decide)).1,
   (resolveRoute_exact_match_or_default.2 exRouteTable exDefaultRoute
      "nonexistent.case" (by decide)).2⟩

/-! ## C4 — what configuration load does and does not validate -/

/-- `Except` monad reduction: binding a raised exception propagates it. -/
theorem exceptBind_error {ε α β : Type} (e : ε) (f : α → Except ε β) :
    (Except.error e >>= f) = Except.error e := rfl

/-- `Except` monad reduction: binding a success applies the
continuation. -/
theorem exceptBind_ok {ε α β : Type} (a : α) (f : α → Except ε β) :
    (Except.ok a >>= f) = f a := rfl

/-- `Except` functor reduction on a raised exception. -/
theorem exceptMap_error {ε α β : Type} (e : ε) (f : α → β) :
    (f <$> (Except.error e : Except ε α)) = Except.error e := rfl

/-- `Except` functor reduction on a success. -/
theorem exceptMap_ok {ε α β : Type} (a : α) (f : α → β) :
    (f <$> (Except.ok a : Except ε α)) = Except.ok (f a) := rfl

/-- `pure` for `Except` is `Except.ok`. -/
theorem exceptPure {ε α : Type} (a : α) :
    (pure a : Except ε α) = Except.ok a := rfl

/-- Building a provider from an entry missing a required field raises
(`KeyError`). -/
theorem buildLLMProvider_missing_field (name : String) (cfg : ProviderCfg)
    (h : cfg.provider_type = none ∨ cfg.endpoint = none ∨ cfg.model = none) :
    exceptOk (buildLLMProvider name cfg) = false := by
  rw [buildLLMProvider]
  rcases h with h | h | h
  · simp [h, cfgField, exceptOk, exceptBind_error, exceptBind_ok,
      exceptMap_error, exceptMap_ok]
  · cases hpt : cfg.provider_type <;>
      simp [h, hpt, cfgField, exceptOk, exceptBind_error, exceptBind_ok,
        exceptMap_error, exceptMap_ok]
  · cases hpt : cfg.provider_type <;> cases hep : cfg.endpoint <;>
      simp [h, hpt, hep, cfgField, exceptOk, exceptBind_error, exceptBind_ok,
        exceptMap_error, exceptMap_ok]

/-- The provider loop of the loader raises as soon as it reaches an entry
missing a required field. -/
theorem buildProviderCatalog_missing_field :
    ∀ (pcfgs : List (String × ProviderCfg)),
      (∃ q ∈ pcfgs, q.2.provider_type = none ∨ q.2.endpoint = none ∨
        q.2.model = none) →
      exceptOk (buildProviderCatalog pcfgs) = false := by
  intro pcfgs
  induction pcfgs with
  | nil =>
    rintro ⟨q, hq, _⟩
    simp at hq
  | cons pc rest ih =>
    obtain ⟨n, cfg⟩ := pc
    rintro ⟨q, hq, hmiss⟩
    rw [buildProviderCatalog]
    rcases List.mem_cons.mp hq with h1 | h1
    · have hb := buildLLMProvider_missing_field n cfg
        (by rw [h1] at hmiss; exact hmiss)
      cases hbuild : buildLLMProvider n cfg with
      | ok p => rw [hbuild] at hb; simp [exceptOk] at hb
      | error e => simp [hbuild, exceptBind_error, exceptOk]
    · cases hbuild : buildLLMProvider n cfg with
      | error e => simp [hbuild, exceptBind_error, exceptOk]
      | ok p =>
        have hr := ih ⟨q, h1, hmiss⟩
        cases hrest : buildProviderCatalog rest with
        | ok ps => rw [hrest] at hr; simp [exceptOk] at hr
        | error e =>
          simp [hbuild, hrest, exceptBind_ok, exceptMap_error, exceptOk]

/-- The route loop leaves the default slot empty when no entry is named
`default`. -/
theorem buildRouteTable_no_default :
    ∀ (rcfgs : List (String × RouteCfg)),
      (∀ q ∈ rcfgs, q.1 ≠ "default") →
      ∀ routes dflt, buildRouteTable rcfgs = Except.ok (routes, dflt) →
        dflt = none := by
  intro rcfgs
  induction rcfgs with
  | nil =>
    intro _ routes dflt heq
    rw [buildRouteTable] at heq
    injection heq with heq
    injection heq with h1 h2
    exact h2.symm
  | cons rc rest ih =>
    obtain ⟨n, r⟩ := rc
    intro h routes dflt heq
    rw [buildRouteTable] at heq
    cases hr : buildLLMRoute n r with
    | error e =>
      rw [hr, exceptBind_error] at heq
      exact Except.noConfusion heq
    | ok route =>
      rw [hr, exceptBind_ok] at heq
      cases hrt : buildRouteTable rest with
      | error e =>
        simp only [hrt, exceptBind_error] at heq
        exact Except.noConfusion heq
      | ok pr =>
        obtain ⟨routes0, dflt0⟩ := pr
        have hn : n ≠ "default" := h (n, r) (List.mem_cons_self _ _)
        simp only [hrt, exceptBind_ok, if_neg hn, exceptPure] at heq
        injection heq with heq
        injection heq with h1 h2
        rw [← h2]
        exact ih (fun q hq => h q (List.mem_cons_of_mem _ hq)) routes0 dflt0 hrt

/-- C4 counterexample: a configuration whose `vkis.embedding` route is
`weighted` over `[p1, p2]` with weights `[1, 0]` — a zero weight — and
which also contains a route referencing a provider name absent from the
catalog, loads **successfully** in both routers, with the `[1, 0]` route
present in the loaded table: `from_yaml_file` validates neither weights
nor provider references, so the load the claim requires to fail
succeeds. -/
theorem weighted_zero_weight_loads_counterexample :
    exceptOk (llmLoad exProvidersCfg exRoutesCfg) = true ∧
    (llmLoad exProvidersCfg exRoutesCfg).toOption.map
      (fun r => dictGetD r.2.1 "vkis.embedding" r.2.2) =
      some { name := "vkis.embedding", strategy := "weighted",
             providers := ["p1", "p2"], weights := some [1, 0] } ∧
    exceptOk (embeddingLoad exProvidersCfg exRoutesCfg) = true := by decide

/-- C4 (amended): configuration load fails fast on exactly two of the
claimed conditions — (a) a provider entry missing a required field
(`KeyError`) and (b) the absence of a `default` route (`ValueError`).
It performs no route validation: provider references are not checked
against the catalog, and the weights of a weighted route are checked neither
for length nor positivity, so the weighted route with weights `[1, 0]`
(and even a route naming an unknown provider) loads successfully in both
the LLM and the embedding router. -/
theorem configLoad_checks_fields_and_default_only :
    (∀ (pcfgs : List (String × ProviderCfg)) (rcfgs : List (String × RouteCfg)),
       (∃ q ∈ pcfgs, q.2.provider_type = none ∨ q.2.endpoint = none ∨
         q.2.model = none) →
       exceptOk (llmLoad pcfgs rcfgs) = false) ∧
    (∀ (pcfgs : List (String × ProviderCfg)) (rcfgs : List (String × RouteCfg)),
       (∀ q ∈ rcfgs, q.1 ≠ "default") →
       exceptOk (llmLoad pcfgs rcfgs) = false) ∧
    exceptOk (llmLoad exProvidersCfg exRoutesCfg) = true ∧
    exceptOk (embeddingLoad exProvidersCfg exRoutesCfg) = true := by
  refine ⟨fun pcfgs rcfgs h => ?_, fun pcfgs rcfgs h => ?_, by decide, by decide⟩
  · rw [llmLoad]
    have hb := buildProviderCatalog_missing_field pcfgs h
    cases hp : buildProviderCatalog pcfgs with
    | ok ps => rw [hp] at hb; simp [exceptOk] at hb
    | error e => simp [hp, exceptBind_error, exceptOk]
  · rw [llmLoad]
    cases hp : buildProviderCatalog pcfgs with
    | error e => simp [hp, exceptBind_error, exceptOk]
    | ok ps =>
      cases hrt : buildRouteTable rcfgs with
      | error e => simp [hp, hrt, exceptBind_ok, exceptBind_error, exceptOk]
      | ok pr =>
        obtain ⟨routes, dflt⟩ := pr
        have hd : dflt = none :=
          buildRouteTable_no_default rcfgs h routes dflt hrt
        subst hd
        simp [hp, hrt, exceptBind_ok, exceptOk]

/-- Evaluation of `configLoad_checks_fields_and_default_only`: a catalog
whose only provider entry lacks `provider_type` fails to load, and a
configuration without a `default` route fails to load. -/
theorem configLoad_checks_fields_and_default_only_witness :
    exceptOk (llmLoad [("p1", exPCfgNoType)] exRoutesCfg) = false ∧
    exceptOk (llmLoad exProvidersCfg exRoutesCfgNoDefault) = false :=
  ⟨configLoad_checks_fields_and_default_only.1 [("p1", exPCfgNoType)]
     exRoutesCfg ⟨("p1", exPCfgNoType), by simp, Or.inl rfl⟩,
   configLoad_checks_fields_and_default_only.2.1 exProvidersCfg
     exRoutesCfgNoDefault (by decide)⟩

end Sensei
